import Mathlib

/-!
Verification of the session/version state model of the image-generation
front-end in `src/main.py`.

Shallow embedding conventions:
* Images are opaque values, modelled as `Nat` identifiers (`Img`).  Image
  decoding (`PIL.Image.open` over the binary payload) is an external codec
  collaborator and is abstracted away: a response part that carries inline
  image data directly carries the decoded opaque image value.
* Streamlit session state (`st.session_state`) is the `Session` structure
  with fields named after the source keys: `generated_images`,
  `image_history`, `last_generated_image`, `last_text_response`.
* The two button handlers (`generate_initial`, main.py lines 36-74, and
  `generate_next_version`, lines 102-150) become pure functions from the
  pre-state and the form inputs to a `RoundOutcome`: the post-state, the
  list of requests actually issued to the external model (one entry per
  `client.models.generate_content` call made), and the list of UI messages
  emitted (`st.warning` / `st.info` / `st.error` / `st.success`).
* The external call is an oracle `call : List ReqPart → CallResult`; a
  Python exception raised by `generate_content` is `CallResult.err`, which
  the `try/except` of the source turns into an `st.error` message.
* Python truthiness is modelled explicitly where the source relies on it:
  an empty string and an empty list are falsy (`if not initial_prompt`,
  `if uploaded_images`, `if not GEMINI_KEY`).
-/

/-- Opaque image value (decoded image object in the source). -/
abbrev Img := Nat

/-- Session state (`st.session_state`), main.py lines 22-29 give the keys. -/
structure Session where
  generated_images : List Img
  image_history : List Img
  last_generated_image : Option Img
  last_text_response : String
deriving DecidableEq, Repr

/-- Response part as delivered in `response.candidates[0].content.parts`
    (main.py lines 59-63 and 133-137): a part has `part.text` set, or
    `part.inline_data` set, or neither (`other`); the source's
    `if .. elif ..` treats these three cases.  The carried image value is
    the decoded payload (codec abstracted, see module docstring). -/
inductive RespPart where
  | text (s : String)
  | image (i : Img)
  | other
deriving DecidableEq, Repr

/-- Request part: the `contents` list sent to `generate_content` holds the
    prompt string and image objects (main.py lines 42-45 and 108-119). -/
inductive ReqPart where
  | prompt (s : String)
  | image (i : Img)
deriving DecidableEq, Repr

/-- Result of one `client.models.generate_content` call: either the ordered
    reply part list, or a raised exception carrying its message. -/
inductive CallResult where
  | ok (parts : List RespPart)
  | err (e : String)
deriving DecidableEq, Repr

/-- UI message emitted by a handler (`st.warning`, `st.info`, `st.error`,
    `st.success`). -/
inductive UiEvent where
  | warning (s : String)
  | info (s : String)
  | error (s : String)
  | success (s : String)
deriving DecidableEq, Repr

/-- Outcome of one handler run: post-state, requests issued, UI messages. -/
structure RoundOutcome where
  state : Session
  requests : List (List ReqPart)
  events : List UiEvent
deriving DecidableEq, Repr

/-- Response-decoding loop shared verbatim by both handlers
    (main.py lines 56-63 and 130-137):

    generated_text = ""
    generated_image = None
    for part in response.candidates[0].content.parts:
        if part.text is not None:
            generated_text += part.text + "\n"
        elif part.inline_data is not None:
            generated_image = Image.open(BytesIO(part.inline_data.data))

    Returns the pair (generated_text, generated_image). -/
def partLoop (parts : List RespPart) : String × Option Img :=
  parts.foldl
    (fun acc part =>
      match part with
      | RespPart.text s => (acc.1 ++ s ++ "\n", acc.2)
      | RespPart.image i => (acc.1, some i)
      | RespPart.other => acc)
    ("", none)

/-- Handler of the "Generate Initial Image" button, main.py lines 36-74.
    `contents = [initial_prompt]` then, when `uploaded_images` is truthy
    (non-empty), `contents.extend(images_for_content)` and
    `st.session_state.image_history = images_for_content` (an assignment,
    not an append) happen BEFORE the external call; extending by an empty
    list is a no-op, so `contents` is written unconditionally here.  The
    `try/except` around the call maps `CallResult.err` to an `st.error`. -/
def generate_initial (s : Session) (initial_prompt : String)
    (uploaded_images : List Img) (call : List ReqPart → CallResult) :
    RoundOutcome :=
  if initial_prompt = "" then
    { state := s, requests := [],
      events := [UiEvent.warning "Please enter an initial prompt."] }
  else
    let contents :=
      ReqPart.prompt initial_prompt :: uploaded_images.map ReqPart.image
    let s1 :=
      if uploaded_images = [] then s
      else { s with image_history := uploaded_images }
    match call contents with
    | CallResult.err e =>
        { state := s1, requests := [contents],
          events :=
            [UiEvent.info "Generating initial image... This may take a moment.",
             UiEvent.error ("An error occurred during initial generation: " ++ e)] }
    | CallResult.ok parts =>
        match (partLoop parts).2 with
        | some img =>
            { state :=
                { s1 with
                  last_generated_image := some img
                  last_text_response := (partLoop parts).1
                  generated_images := s1.generated_images ++ [img] },
              requests := [contents],
              events :=
                [UiEvent.info "Generating initial image... This may take a moment.",
                 UiEvent.success "Initial image generated successfully!"] }
        | none =>
            { state := { s1 with last_text_response := (partLoop parts).1 },
              requests := [contents],
              events :=
                [UiEvent.info "Generating initial image... This may take a moment.",
                 UiEvent.warning "No image was generated. The model might have only returned text."] }

/-- Handler of the "Generate Next Version" button, main.py lines 102-150.
    `contents_followup = [followup_prompt]`, then the seed image
    (`st.session_state.last_generated_image`, when set) is appended, then
    the newly uploaded context images; when there are uploads,
    `st.session_state.image_history.extend(new_context_images)` also runs
    BEFORE the external call.  The `st.rerun()` on success only refreshes
    the display and has no state effect. -/
def generate_next_version (s : Session) (followup_prompt : String)
    (followup_uploaded_images : List Img)
    (call : List ReqPart → CallResult) : RoundOutcome :=
  if followup_prompt = "" then
    { state := s, requests := [],
      events := [UiEvent.warning "Please enter a prompt for the next version."] }
  else
    let contents :=
      ReqPart.prompt followup_prompt ::
        ((match s.last_generated_image with
          | some img => [ReqPart.image img]
          | none => []) ++ followup_uploaded_images.map ReqPart.image)
    let s1 :=
      if followup_uploaded_images = [] then s
      else { s with
             image_history := s.image_history ++ followup_uploaded_images }
    match call contents with
    | CallResult.err e =>
        { state := s1, requests := [contents],
          events :=
            [UiEvent.info "Generating next image version... This may take a moment.",
             UiEvent.error ("An error occurred during follow-up generation: " ++ e)] }
    | CallResult.ok parts =>
        match (partLoop parts).2 with
        | some img =>
            { state :=
                { s1 with
                  last_generated_image := some img
                  last_text_response := (partLoop parts).1
                  generated_images := s1.generated_images ++ [img] },
              requests := [contents],
              events :=
                [UiEvent.info "Generating next image version... This may take a moment.",
                 UiEvent.success "Image refined successfully!"] }
        | none =>
            { state := { s1 with last_text_response := (partLoop parts).1 },
              requests := [contents],
              events :=
                [UiEvent.info "Generating next image version... This may take a moment.",
                 UiEvent.warning "No new image was generated. The model might have only returned text."] }

/-- Raw session-state dictionary before the guarded initialization block:
    each key is `none` when absent from `st.session_state`. -/
structure RawState where
  generated_images : Option (List Img)
  image_history : Option (List Img)
  last_generated_image : Option (Option Img)
  last_text_response : Option String
deriving DecidableEq, Repr

/-- Session-state initialization block, main.py lines 22-29: every key is
    set to its default only when it is not yet present
    (`if "generated_images" not in st.session_state: ...` and so on). -/
def initSessionState (st : RawState) : RawState :=
  { generated_images :=
      match st.generated_images with
      | none => some []
      | some xs => some xs
    image_history :=
      match st.image_history with
      | none => some []
      | some xs => some xs
    last_generated_image :=
      match st.last_generated_image with
      | none => some none
      | some x => some x
    last_text_response :=
      match st.last_text_response with
      | none => some ""
      | some t => some t }

/-- Python string-option truthiness: `None` and `""` are falsy. -/
def pyTruthy (o : Option String) : Bool :=
  match o with
  | none => false
  | some s => if s = "" then false else true

/-- Credential resolution, main.py line 10:
    `GEMINI_KEY = os.getenv("GEMINI_KEY") or st.secrets.get("GEMINI_KEY")`.
    Python `or` returns the left operand when truthy, else the right. -/
def resolveKey (env secrets : Option String) : Option String :=
  if pyTruthy env then env else secrets

/-- Startup prefix, main.py lines 10-19: resolve the key; when the result is
    falsy, `st.error` then `st.stop()` halt the script (modelled as
    `Except.error` with the message shown) before any UI is built --
    `st.set_page_config` / `st.title` (lines 18-19) and everything after
    them run only in the `Except.ok` case. -/
def startup (env secrets : Option String) : Except String String :=
  let key := resolveKey env secrets
  if pyTruthy key then
    Except.ok (key.getD "")
  else
    Except.error "Gemini API key not found. Please set it in your environment variables or Streamlit secrets."

/-- Session holding the defaults of main.py lines 22-29. -/
def emptySession : Session :=
  { generated_images := []
    image_history := []
    last_generated_image := none
    last_text_response := "" }

/-- One successful round (the external call returned a reply): either a
    press of "Generate Initial Image" or of "Generate Next Version", with
    the submitted prompt, the uploaded images, and the reply part list. -/
inductive RoundEvent where
  | initial (prompt : String) (uploads : List Img) (reply : List RespPart)
  | followup (prompt : String) (uploads : List Img) (reply : List RespPart)
deriving DecidableEq, Repr

/-- Session transition of one successful round. -/
def stepRound (s : Session) (ev : RoundEvent) : Session :=
  match ev with
  | RoundEvent.initial p ups reply =>
      (generate_initial s p ups (fun _ => CallResult.ok reply)).state
  | RoundEvent.followup p ups reply =>
      (generate_next_version s p ups (fun _ => CallResult.ok reply)).state

/-- Session after a sequence of successful rounds. -/
def runRounds (s : Session) (evs : List RoundEvent) : Session :=
  evs.foldl stepRound s

/-- A round result "included an image" when the round passed the
    empty-prompt guard (so a call happened) and the decoded reply carried
    at least one image part. -/
def roundProducesImage (ev : RoundEvent) : Bool :=
  match ev with
  | RoundEvent.initial p _ reply =>
      if p = "" then false else (partLoop reply).2.isSome
  | RoundEvent.followup p _ reply =>
      if p = "" then false else (partLoop reply).2.isSome

/-- Spec-side decoding of `GenerationResult.text` from the reply parts:
    the text parts in order, each followed by a newline, concatenated.
    This definition follows the spec wording, for comparison with
    `partLoop` (which is translated from the source loop). -/
def specText (parts : List RespPart) : String :=
  String.join ((parts.filterMap
    (fun p => match p with | RespPart.text s => some s | _ => none)).map
    (fun s => s ++ "\n"))

/-- Spec-side decoding of `GenerationResult.image`: the last image part
    encountered, absent when there is none.  Follows the spec wording, for
    comparison with `partLoop`. -/
def specImage (parts : List RespPart) : Option Img :=
  (parts.filterMap
    (fun p => match p with | RespPart.image i => some i | _ => none)).getLast?

-- ----------------------------------------------------------------------
-- Helper lemmas (shared by several claims)
-- ----------------------------------------------------------------------

theorem strFoldlAppend (l : List String) (a b : String) :
    l.foldl (fun r s => r ++ s) (a ++ b) = a ++ l.foldl (fun r s => r ++ s) b := by
  induction l generalizing b with
  | nil => simp
  | cons c cs ih => simp only [List.foldl_cons, String.append_assoc, ih]

theorem stringJoinCons (x : String) (l : List String) :
    String.join (x :: l) = x ++ String.join l := by
  show l.foldl (fun r s => r ++ s) ("" ++ x) = x ++ l.foldl (fun r s => r ++ s) ""
  rw [String.empty_append]
  calc l.foldl (fun r s => r ++ s) x
      = l.foldl (fun r s => r ++ s) (x ++ "") := by rw [String.append_empty]
    _ = x ++ l.foldl (fun r s => r ++ s) "" := strFoldlAppend l x ""

theorem getLastOptionCons (a : Img) (l : List Img) :
    (a :: l).getLast? =
      match l.getLast? with
      | some x => some x
      | none => some a := by
  induction l generalizing a with
  | nil => rfl
  | cons b bs ih =>
    rw [List.getLast?_cons_cons, ih b]
    rcases h : bs.getLast? with _ | x <;> simp [h]

theorem partLoop_fold (parts : List RespPart) (acc : String × Option Img) :
    parts.foldl
      (fun acc part =>
        match part with
        | RespPart.text s => (acc.1 ++ s ++ "\n", acc.2)
        | RespPart.image i => (acc.1, some i)
        | RespPart.other => acc)
      acc =
    (acc.1 ++ specText parts,
     match specImage parts with
     | some i => some i
     | none => acc.2) := by
  induction parts generalizing acc with
  | nil =>
    have h1 : specText ([] : List RespPart) = "" := rfl
    have h2 : specImage ([] : List RespPart) = none := rfl
    rw [List.foldl_nil, h1, h2, String.append_empty]
  | cons p ps ih =>
    cases p with
    | text s =>
      rw [List.foldl_cons, ih]
      have ht : specText (RespPart.text s :: ps) = (s ++ "\n") ++ specText ps := by
        simp [specText, List.filterMap_cons, stringJoinCons]
      have hi : specImage (RespPart.text s :: ps) = specImage ps := by
        simp [specImage, List.filterMap_cons]
      rw [ht, hi]
      simp [String.append_assoc]
    | image i =>
      rw [List.foldl_cons, ih]
      have ht : specText (RespPart.image i :: ps) = specText ps := by
        simp [specText, List.filterMap_cons]
      have hi : specImage (RespPart.image i :: ps) =
          (match specImage ps with | some x => some x | none => some i) := by
        simp only [specImage, List.filterMap_cons]
        exact getLastOptionCons i _
      rw [ht, hi]
      rcases h : specImage ps with _ | j <;> simp [h]
    | other =>
      rw [List.foldl_cons, ih]
      have ht : specText (RespPart.other :: ps) = specText ps := by
        simp [specText, List.filterMap_cons]
      have hi : specImage (RespPart.other :: ps) = specImage ps := by
        simp [specImage, List.filterMap_cons]
      rw [ht, hi]

theorem stepRound_len (s : Session) (ev : RoundEvent) :
    (stepRound s ev).generated_images.length =
      s.generated_images.length +
        (if roundProducesImage ev then 1 else 0) := by
  cases ev with
  | initial p ups reply =>
    by_cases hp : p = ""
    · simp [stepRound, generate_initial, roundProducesImage, hp]
    · rcases himg : (partLoop reply).2 with _ | i <;>
        by_cases hu : ups = [] <;>
          simp [stepRound, generate_initial, roundProducesImage, hp, hu, himg]
  | followup p ups reply =>
    by_cases hp : p = ""
    · simp [stepRound, generate_next_version, roundProducesImage, hp]
    · rcases himg : (partLoop reply).2 with _ | i <;>
        by_cases hu : ups = [] <;>
          simp [stepRound, generate_next_version, roundProducesImage, hp, hu, himg]

theorem runRounds_len (s : Session) (evs : List RoundEvent) :
    (runRounds s evs).generated_images.length =
      s.generated_images.length + evs.countP roundProducesImage := by
  induction evs generalizing s with
  | nil => simp [runRounds]
  | cons ev evs ih =>
    have h := stepRound_len s ev
    by_cases hev : roundProducesImage ev <;>
      simp [runRounds, List.foldl_cons, List.countP_cons, hev] at * <;>
      · have := ih (stepRound s ev)
        simp [runRounds] at this
        omega

theorem generate_initial_image_history (s : Session) (p : String)
    (ups : List Img) (call : List ReqPart → CallResult) :
    (generate_initial s p ups call).state.image_history =
      if p = "" then s.image_history
      else if ups = [] then s.image_history else ups := by
  by_cases hp : p = ""
  · simp [generate_initial, hp]
  · by_cases hu : ups = [] <;>
      · simp only [generate_initial, hp, hu, if_neg, if_pos, ite_true, ite_false,
          not_false_eq_true]
        split <;> (try split) <;> simp [hu]

theorem generate_next_version_image_history (s : Session) (p : String)
    (ups : List Img) (call : List ReqPart → CallResult) :
    (generate_next_version s p ups call).state.image_history =
      if p = "" then s.image_history
      else s.image_history ++ ups := by
  by_cases hp : p = ""
  · simp [generate_next_version, hp]
  · by_cases hu : ups = [] <;>
      · simp only [generate_next_version, hp, hu, if_neg, if_pos, ite_true, ite_false,
          not_false_eq_true]
        split <;> (try split) <;> simp [hu]

-- ----------------------------------------------------------------------
-- Claims
-- ----------------------------------------------------------------------

/-- C7: a round submitted with an empty prompt shows a warning, issues no
    call to the external model (the request log is empty), and leaves the
    Session byte-for-byte unchanged -- for both handlers, whatever the
    uploads and whatever the external service would have answered. -/
theorem C7_empty_prompt (s : Session) (ups : List Img)
    (call : List ReqPart → CallResult) :
    generate_initial s "" ups call =
      { state := s, requests := [],
        events := [UiEvent.warning "Please enter an initial prompt."] } ∧
    generate_next_version s "" ups call =
      { state := s, requests := [],
        events := [UiEvent.warning "Please enter a prompt for the next version."] } := by
  constructor <;> rfl

/-- C6: for every reply part list from the model, the decoded text is the
    concatenation of all text parts, each followed by a newline, and the
    decoded image is the last image part encountered -- absent when there is
    none, which is not an error: the decoding loop is total and simply
    leaves the image component empty. -/
theorem C6_decode (parts : List RespPart) :
    (partLoop parts).1 = specText parts ∧
    (partLoop parts).2 = specImage parts := by
  unfold partLoop
  rw [partLoop_fold parts ("", none)]
  refine ⟨String.empty_append _, ?_⟩
  rcases hs : specImage parts with _ | i <;> simp [hs]

/-- C4: over any sequence of successful rounds starting from the empty
    Session, the length of `generated_images` (the history) equals the
    number of rounds whose result included an image, and it is monotonically
    non-decreasing as further rounds are appended to the sequence. -/
theorem C4_history_length (evs more : List RoundEvent) :
    (runRounds emptySession evs).generated_images.length =
      evs.countP roundProducesImage ∧
    (runRounds emptySession evs).generated_images.length ≤
      (runRounds emptySession (evs ++ more)).generated_images.length := by
  have h0 : emptySession.generated_images.length = 0 := rfl
  have h1 := runRounds_len emptySession evs
  have h2 := runRounds_len emptySession (evs ++ more)
  rw [List.countP_append] at h2
  constructor
  · omega
  · omega

/-- C10: one successful round grows `generated_images` by at most one entry:
    by exactly one when the round produced an image (even when the reply
    held several image parts, only the last-seen one is appended, once), and
    by zero otherwise. -/
theorem C10_at_most_one (s : Session) (ev : RoundEvent) :
    (stepRound s ev).generated_images.length =
      s.generated_images.length +
        (if roundProducesImage ev then 1 else 0) ∧
    (stepRound s ev).generated_images.length ≤ s.generated_images.length + 1 := by
  have h := stepRound_len s ev
  refine ⟨h, ?_⟩
  rw [h]
  split <;> omega

/-- C3: a round whose reply decodes to no image leaves
    `last_generated_image` (currentImage) and `generated_images` (history)
    unchanged and overwrites `last_text_response` (currentDescription) with
    the round's decoded text -- for both handlers. -/
theorem C3_text_only (s : Session) (p : String) (ups : List Img)
    (reply : List RespPart) (hp : p ≠ "")
    (himg : (partLoop reply).2 = none) :
    ((generate_initial s p ups (fun _ => CallResult.ok reply)).state.last_generated_image
        = s.last_generated_image ∧
     (generate_initial s p ups (fun _ => CallResult.ok reply)).state.generated_images
        = s.generated_images ∧
     (generate_initial s p ups (fun _ => CallResult.ok reply)).state.last_text_response
        = (partLoop reply).1) ∧
    ((generate_next_version s p ups (fun _ => CallResult.ok reply)).state.last_generated_image
        = s.last_generated_image ∧
     (generate_next_version s p ups (fun _ => CallResult.ok reply)).state.generated_images
        = s.generated_images ∧
     (generate_next_version s p ups (fun _ => CallResult.ok reply)).state.last_text_response
        = (partLoop reply).1) := by
  by_cases hu : ups = [] <;>
    simp [generate_initial, generate_next_version, hp, hu, himg]

/-- Witness for C3: a concrete text-only round on the empty Session. -/
theorem C3_text_only_witness :
    ("hi" : String) ≠ "" ∧
    (partLoop [RespPart.text "desc"]).2 = none ∧
    (generate_initial emptySession "hi" []
        (fun _ => CallResult.ok [RespPart.text "desc"])).state.last_generated_image
      = emptySession.last_generated_image := by
  refine ⟨by decide, by decide, ?_⟩
  exact (C3_text_only emptySession "hi" [] [RespPart.text "desc"]
    (by decide) (by decide)).1.1

/-- C5: when the empty-prompt guard passes, each handler issues exactly one
    request whose parts are the prompt first, then the seed image
    (`last_generated_image`, present only in the follow-up handler -- the
    initial handler never sends a seed), then each uploaded image in upload
    order. -/
theorem C5_request_order (s : Session) (p : String) (ups : List Img)
    (call : List ReqPart → CallResult) (hp : p ≠ "") :
    (generate_initial s p ups call).requests =
      [ReqPart.prompt p :: ups.map ReqPart.image] ∧
    (generate_next_version s p ups call).requests =
      [ReqPart.prompt p ::
        ((match s.last_generated_image with
          | some img => [ReqPart.image img]
          | none => []) ++ ups.map ReqPart.image)] := by
  constructor <;>
    · simp only [generate_initial, generate_next_version, hp, ite_false, if_neg,
        not_false_eq_true]
      split <;> (try split) <;> simp

/-- Witness for C5: a concrete round with one upload and a failing call. -/
theorem C5_request_order_witness :
    ("a" : String) ≠ "" ∧
    (generate_initial emptySession "a" [2]
        (fun _ => CallResult.err "x")).requests =
      [[ReqPart.prompt "a", ReqPart.image 2]] := by
  refine ⟨by decide, ?_⟩
  exact (C5_request_order emptySession "a" [2] (fun _ => CallResult.err "x")
    (by decide)).1

/-- C9: the credential is resolved from the environment variable first and
    the secrets store second (Python truthiness: an unset or empty value is
    no credential), and when neither yields one the startup prefix halts
    with the fatal error message -- the `Except.error` case, reached before
    any UI is built; otherwise startup proceeds with the resolved key. -/
theorem C9_credential (env secrets : Option String) :
    (pyTruthy env = true →
      startup env secrets = Except.ok (env.getD "")) ∧
    (pyTruthy env = false → pyTruthy secrets = true →
      startup env secrets = Except.ok (secrets.getD "")) ∧
    (pyTruthy env = false → pyTruthy secrets = false →
      startup env secrets = Except.error
        "Gemini API key not found. Please set it in your environment variables or Streamlit secrets.") := by
  refine ⟨fun h1 => ?_, fun h1 h2 => ?_, fun h1 h2 => ?_⟩
  · simp [startup, resolveKey, h1]
  · simp [startup, resolveKey, h1, h2]
  · simp [startup, resolveKey, h1, h2]

/-- Witness for C9: unset environment variable, secrets store has the key. -/
theorem C9_credential_witness :
    pyTruthy none = false ∧ pyTruthy (some "k") = true ∧
    startup none (some "k") = Except.ok "k" := by
  refine ⟨by decide, by decide, ?_⟩
  exact (C9_credential none (some "k")).2.1 (by decide) (by decide)

/-- C8: the guarded session-state initialization is idempotent, leaves every
    already-present key unchanged, and on a fresh state (no key present)
    produces exactly the empty-Session defaults. -/
theorem C8_init (st : RawState) :
    initSessionState (initSessionState st) = initSessionState st ∧
    (∀ xs, st.generated_images = some xs →
      (initSessionState st).generated_images = some xs) ∧
    (∀ xs, st.image_history = some xs →
      (initSessionState st).image_history = some xs) ∧
    (∀ x, st.last_generated_image = some x →
      (initSessionState st).last_generated_image = some x) ∧
    (∀ t, st.last_text_response = some t →
      (initSessionState st).last_text_response = some t) ∧
    initSessionState
        { generated_images := none, image_history := none,
          last_generated_image := none, last_text_response := none } =
      { generated_images := some [], image_history := some [],
        last_generated_image := some none, last_text_response := some "" } := by
  refine ⟨?_,
    fun xs h => by simp [initSessionState, h],
    fun xs h => by simp [initSessionState, h],
    fun x h => by simp [initSessionState, h],
    fun t h => by simp [initSessionState, h],
    rfl⟩
  rcases st with ⟨a, b, c, d⟩
  rcases a <;> rcases b <;> rcases c <;> rcases d <;> rfl

/-- Witness for C8: a state whose keys are all present is left unchanged in
    its `generated_images` field. -/
theorem C8_init_witness :
    ({ generated_images := some [4], image_history := some [],
       last_generated_image := some none,
       last_text_response := some "t" } : RawState).generated_images
      = some [4] ∧
    (initSessionState
        { generated_images := some [4], image_history := some [],
          last_generated_image := some none,
          last_text_response := some "t" }).generated_images = some [4] := by
  refine ⟨rfl, ?_⟩
  exact (C8_init _).2.1 [4] rfl

/-- C1 counterexample: a follow-up round whose external call raises, run
    with one newly uploaded image, does NOT leave the Session exactly as it
    was before the round: `image_history` was already extended before the
    failing call. -/
theorem C1_counterexample :
    (generate_next_version
        { generated_images := [], image_history := [],
          last_generated_image := some 7, last_text_response := "" }
        "make it blue" [3] (fun _ => CallResult.err "boom")).state ≠
      { generated_images := [], image_history := [],
        last_generated_image := some 7, last_text_response := "" } := by
  decide

/-- C1 amended: when the external call fails, `generated_images`,
    `last_generated_image` and `last_text_response` are exactly as before
    the round; `image_history`, however, has already been mutated before
    the call whenever the round had uploads -- the initial handler replaces
    it with the uploads and the follow-up handler appends them. -/
theorem C1_failed_round (s : Session) (p : String) (ups : List Img)
    (e : String) (hp : p ≠ "") :
    ((generate_initial s p ups (fun _ => CallResult.err e)).state.generated_images
        = s.generated_images ∧
     (generate_initial s p ups (fun _ => CallResult.err e)).state.last_generated_image
        = s.last_generated_image ∧
     (generate_initial s p ups (fun _ => CallResult.err e)).state.last_text_response
        = s.last_text_response ∧
     (generate_initial s p ups (fun _ => CallResult.err e)).state.image_history
        = (if ups = [] then s.image_history else ups)) ∧
    ((generate_next_version s p ups (fun _ => CallResult.err e)).state.generated_images
        = s.generated_images ∧
     (generate_next_version s p ups (fun _ => CallResult.err e)).state.last_generated_image
        = s.last_generated_image ∧
     (generate_next_version s p ups (fun _ => CallResult.err e)).state.last_text_response
        = s.last_text_response ∧
     (generate_next_version s p ups (fun _ => CallResult.err e)).state.image_history
        = s.image_history ++ ups) := by
  by_cases hu : ups = [] <;>
    simp [generate_initial, generate_next_version, hp, hu]

/-- Witness for C1 amended: concrete failing follow-up round with one
    upload; the upload is appended to `image_history` despite the failure. -/
theorem C1_failed_round_witness :
    ("p" : String) ≠ "" ∧
    (generate_next_version emptySession "p" [3]
        (fun _ => CallResult.err "boom")).state.image_history =
      emptySession.image_history ++ [3] :=
  ⟨by decide,
   (C1_failed_round emptySession "p" [3] "boom" (by decide)).2.2.2.2⟩

/-- C2 counterexample: pressing "Generate Initial Image" with an upload on a
    Session whose `image_history` already holds image 0 REPLACES the list
    with the new uploads instead of appending: the prior entry 0 is gone
    from the resulting history. -/
theorem C2_counterexample :
    (generate_initial
        { generated_images := [], image_history := [0],
          last_generated_image := none, last_text_response := "" }
        "p" [1] (fun _ => CallResult.ok [])).state.image_history = [1] ∧
    (0 : Img) ∉ ([1] : List Img) := by
  refine ⟨by decide, by decide⟩

/-- C2 amended: the exact effect of every operation on `image_history`.
    A follow-up round appends exactly the round's uploads (so it is
    append-only and never clears or replaces existing entries), an initial
    round without uploads leaves `image_history` unchanged, an initial
    round WITH uploads replaces `image_history` wholesale by that round's
    uploads, and a round rejected by the empty-prompt guard changes
    nothing.  This holds for every pre-state, prompt, upload list and call
    oracle (in particular whether the call fails or succeeds). -/
theorem C2_image_history_effect (s : Session) (p : String) (ups : List Img)
    (call : List ReqPart → CallResult) :
    (generate_next_version s p ups call).state.image_history =
      (if p = "" then s.image_history else s.image_history ++ ups) ∧
    (generate_initial s p ups call).state.image_history =
      (if p = "" then s.image_history
       else if ups = [] then s.image_history else ups) :=
  ⟨generate_next_version_image_history s p ups call,
   generate_initial_image_history s p ups call⟩
